import Mathlib

/-!
Verification of the AuSTRICH-AI transcript-to-report pipeline.

Shallow embedding of the backend source (`backend/main.py`, `backend/transcribe.py`,
`backend/bedrock.py`, `backend/s3_client.py`).  External effects (S3, Bedrock, the
transcription service, wall clock, uuid generation) are passed in explicitly as
environment parameters; Python exceptions are modelled with `Except PyErr`.
-/

/-- Python exception values, carrying the `str(e)` message. -/
inductive PyErr where
  | attributeError (msg : String)
  | typeError (msg : String)
  | valueError (msg : String)
  | indexError (msg : String)
  | exception (msg : String)
deriving DecidableEq

/-- Python `str(e)` on an exception. -/
def pyStr : PyErr → String
  | .attributeError m => m
  | .typeError m => m
  | .valueError m => m
  | .indexError m => m
  | .exception m => m

/-! ## Python string primitives (on `List Char`) -/

/-- The whitespace characters stripped by Python `str.strip()` (the ASCII
range, including the separator control characters `\x1c`-`\x1f`; the wider
Unicode space classes do not occur in model responses considered here). -/
def isPyWs (c : Char) : Bool :=
  c == ' ' || c == '\t' || c == '\n' || c == '\r' || c == '\x0b' || c == '\x0c' ||
    c == '\x1c' || c == '\x1d' || c == '\x1e' || c == '\x1f'

/-- Python `str.strip()`. -/
def pyStripL (s : List Char) : List Char :=
  ((s.dropWhile isPyWs).reverse.dropWhile isPyWs).reverse

/-- Does `s` start with `pat`? -/
def startsWithL : List Char → List Char → Bool
  | [], _ => true
  | _ :: _, [] => false
  | p :: ps, c :: cs => p == c && startsWithL ps cs

/-- Split around the first occurrence of the (nonempty) pattern: returns
`(before, after)`; `none` if the pattern does not occur.  Models Python
`s.split(pat, 1)` when the pattern is present. -/
def breakAtSub (pat : List Char) : List Char → Option (List Char × List Char)
  | [] => none
  | c :: cs =>
    if startsWithL pat (c :: cs) then some ([], (c :: cs).drop pat.length)
    else match breakAtSub pat cs with
      | some (pre, post) => some (c :: pre, post)
      | none => none

/-- Split around the last occurrence of the pattern (Python `s.rsplit(pat, 1)`). -/
def breakAtLastSub (pat : List Char) : List Char → Option (List Char × List Char)
  | [] => none
  | c :: cs =>
    match breakAtLastSub pat cs with
    | some (pre, post) => some (c :: pre, post)
    | none =>
      if startsWithL pat (c :: cs) then some ([], (c :: cs).drop pat.length)
      else none

/-- Python `pat in s` (substring containment). -/
def containsSub (pat s : List Char) : Bool :=
  (breakAtSub pat s).isSome

/-- First index where `p` holds (Python `str.find` when searching one char). -/
def findIdx1 (p : Char → Bool) : List Char → Option Nat
  | [] => none
  | c :: cs => if p c then some 0 else (findIdx1 p cs).map (· + 1)

/-- Last index where `p` holds (Python `str.rfind` when searching one char). -/
def rfindIdx1 (p : Char → Bool) : List Char → Option Nat
  | [] => none
  | c :: cs =>
    match rfindIdx1 p cs with
    | some n => some (n + 1)
    | none => if p c then some 0 else none

/-- Python `s.replace(pat, repl)` for a nonempty pattern given as `p :: ps`:
replaces every (leftmost-first, non-overlapping) occurrence. -/
def replaceSubGo (p : Char) (ps repl : List Char) : List Char → List Char
  | [] => []
  | c :: cs =>
    if startsWithL (p :: ps) (c :: cs) then
      repl ++ replaceSubGo p ps repl (cs.drop ps.length)
    else
      c :: replaceSubGo p ps repl cs
termination_by s => s.length
decreasing_by
  all_goals simp_all [List.length_drop]
  omega

/-- Python `s.replace(pat, repl)` (empty pattern never occurs in the source). -/
def pyReplace (s pat repl : String) : String :=
  match pat.data with
  | [] => s
  | p :: ps => String.mk (replaceSubGo p ps repl.data s.data)

/-! ## Structured-Response Extractor: fence stripping and brace slicing
(`backend/main.py`, `analyze_transcript_endpoint`, lines 150-162) -/

/-- Step 2 of the extractor: if a ```` ```json ```` fenced block is present take
the text between its opening marker and the next fence; else if any ```` ``` ````
fence is present take the text between the first and the last fence.
Mirrors the `split` expressions of the source. -/
def unfenceL (s : List Char) : List Char :=
  if containsSub "```json".data s then
    -- cleaned_text.split('```json', 1)[1].split('```', 1)[0]
    match breakAtSub "```json".data s with
    | some (_, post) =>
      match breakAtSub "```".data post with
      | some (pre, _) => pre
      | none => post
    | none => s
  else if containsSub "```".data s then
    -- cleaned_text.split('```', 1)[1].rsplit('```', 1)[0]
    match breakAtSub "```".data s with
    | some (_, post) =>
      match breakAtLastSub "```".data post with
      | some (pre, _) => pre
      | none => post
    | none => s
  else s

/-- Step 3 of the extractor: `start = find('{')`, `end = rfind('}') + 1`,
slice `[start:end]` when `start != -1 and end > start`. -/
def braceSliceL (s : List Char) : List Char :=
  match findIdx1 (· == '{') s with
  | none => s
  | some st =>
    let en := match rfindIdx1 (· == '}') s with
      | some j => j + 1
      | none => 0
    if st < en then (s.drop st).take (en - st) else s

def pyStripS (s : String) : String := String.mk (pyStripL s.data)

def unfenceS (s : String) : String := String.mk (unfenceL s.data)

def braceSliceS (s : String) : String := String.mk (braceSliceL s.data)

/-- The cleaning chain of the extractor: trim, unfence, brace-slice. -/
def cleanResponse (r : String) : String :=
  braceSliceS (unfenceS (pyStripS r))

/-- `True` when the text contains no `{` that is later followed by a `}`
(the situation in which the brace-slicing step leaves the text unchanged). -/
def bracePairFree (s : List Char) : Bool :=
  !('}' ∈ ((s.dropWhile (· != '{')).drop 1))

/-! ## Timestamp normalization (`backend/main.py`, lines 165-169) -/

/-- `value.split('.')[0].split(',')[0][:8]`. -/
def cleanTs (s : String) : String :=
  String.mk (((s.data.takeWhile (· != '.')).takeWhile (· != ',')).take 8)

/-- The canonical 8-character `HH:MM:SS` shape. -/
def isHHMMSS (s : String) : Bool :=
  match s.data with
  | [a, b, c, d, e, f, g, h] =>
    a.isDigit && b.isDigit && c == ':' && d.isDigit && e.isDigit && f == ':' &&
      g.isDigit && h.isDigit
  | _ => false

/-! ## JSON values (model of Python `json.loads` / `json.dumps`) -/

/-- A parsed JSON value.  Numbers keep their source lexeme verbatim (the
pipeline never computes with them; for integer literals this matches Python,
which would re-serialize floats in normalized form). -/
inductive Json where
  | null
  | bool (b : Bool)
  | num (lexeme : String)
  | str (s : String)
  | arr (elems : List Json)
  | obj (fields : List (String × Json))

/-- JSON whitespace (the only whitespace `json.loads` skips between tokens). -/
def jsonWs (c : Char) : Bool :=
  c == ' ' || c == '\t' || c == '\n' || c == '\r'

/-- Value of a hex digit (code points 48-57, 97-102, 65-70). -/
def hexVal (c : Char) : Option Nat :=
  let n := c.toNat
  if 48 ≤ n && n ≤ 57 then some (n - 48)
  else if 97 ≤ n && n ≤ 102 then some (n - 87)
  else if 65 ≤ n && n ≤ 70 then some (n - 55)
  else none

/-- One-character escape codes inside JSON strings, as a lookup table. -/
def escCode (c : Char) : Option Char :=
  List.lookup c
    [('"', '"'), ('\\', '\\'), ('/', '/'), ('b', '\x08'),
     ('f', '\x0c'), ('n', '\n'), ('r', '\r'), ('t', '\t')]

/-- Parse the body of a JSON string (the opening quote already consumed);
returns the decoded characters and the rest of the input.  Follows `json.loads`
in strict mode: raw control characters are rejected.  Deviation: surrogate-pair
escapes for astral characters are rejected rather than combined. -/
def strBody : List Char → Option (List Char × List Char)
  | [] => none
  | '"' :: cs => some ([], cs)
  | '\\' :: 'u' :: h1 :: h2 :: h3 :: h4 :: cs2 =>
    (match hexVal h1, hexVal h2, hexVal h3, hexVal h4 with
    | some a, some b, some c, some d =>
      let n := ((a * 16 + b) * 16 + c) * 16 + d
      if n < 0xd800 || 0xdfff < n then
        (strBody cs2).map (fun (chars, rest) => (Char.ofNat n :: chars, rest))
      else none
    | _, _, _, _ => none)
  | '\\' :: e :: cs =>
    (match escCode e with
    | some c => (strBody cs).map (fun (chars, rest) => (c :: chars, rest))
    | none => none)
  | c :: cs =>
    if c.toNat < 0x20 then none
    else (strBody cs).map (fun (chars, rest) => (c :: chars, rest))

/-- Parse a JSON number literal, returning its lexeme and the rest.
Grammar: `-? (0 | [1-9][0-9]*) (. [0-9]+)? ([eE] [+-]? [0-9]+)?`. -/
def parseNum (s : List Char) : Option (String × List Char) :=
  let (sign, s1) := match s with
    | '-' :: r => (['-'], r)
    | r => (([] : List Char), r)
  match s1 with
  | [] => none
  | c :: r =>
    if !c.isDigit then none
    else
      let (ip, rest) :=
        if c == '0' then ([c], r)
        else (c :: r.takeWhile Char.isDigit, r.dropWhile Char.isDigit)
      let (fp, rest2) := match rest with
        | '.' :: r2 =>
          let ds := r2.takeWhile Char.isDigit
          if ds.isEmpty then ([('⊥' : Char)], r2)  -- marker: invalid
          else ('.' :: ds, r2.dropWhile Char.isDigit)
        | r2 => (([] : List Char), r2)
      if fp == ['⊥'] then none
      else
        let (ep, rest3) := match rest2 with
          | e :: r3 =>
            if e == 'e' || e == 'E' then
              let (es, r4) := match r3 with
                | '+' :: r5 => (['+'], r5)
                | '-' :: r5 => (['-'], r5)
                | r5 => (([] : List Char), r5)
              let ds := r4.takeWhile Char.isDigit
              if ds.isEmpty then (some ([('⊥' : Char)]), r4)
              else (some (e :: es ++ ds), r4.dropWhile Char.isDigit)
            else (none, rest2)
          | r3 => (none, r3)
        match ep with
        | some ['⊥'] => none
        | some es => some (String.mk (sign ++ ip ++ fp ++ es), rest3)
        | none => some (String.mk (sign ++ ip ++ fp), rest3)

/-- Python-dict insertion: position of the first insertion of a key is kept,
its value is the last one written (duplicate keys: last wins). -/
def insertKV (kvs : List (String × Json)) (k : String) (v : Json) :
    List (String × Json) :=
  if kvs.any (fun p => p.1 == k) then
    kvs.map (fun p => if p.1 == k then (k, v) else p)
  else kvs ++ [(k, v)]

mutual

/-- Parse one JSON value (fuel-indexed recursive descent). -/
def parseVal (fuel : Nat) (s : List Char) : Option (Json × List Char) :=
  match fuel with
  | 0 => none
  | fuel + 1 =>
    let s := s.dropWhile jsonWs
    match s with
    | '{' :: cs =>
      let t := cs.dropWhile jsonWs
      match t with
      | '}' :: r => some (Json.obj [], r)
      | _ => parseMembers fuel t []
    | '[' :: cs =>
      let t := cs.dropWhile jsonWs
      match t with
      | ']' :: r => some (Json.arr [], r)
      | _ => parseElems fuel t []
    | '"' :: cs => (strBody cs).map (fun (chars, rest) => (Json.str (String.mk chars), rest))
    | _ =>
      if startsWithL "true".data s then some (Json.bool true, s.drop 4)
      else if startsWithL "false".data s then some (Json.bool false, s.drop 5)
      else if startsWithL "null".data s then some (Json.null, s.drop 4)
      else (parseNum s).map (fun (lex, rest) => (Json.num lex, rest))

/-- Parse `string : value` members of an object, comma separated, up to `}`. -/
def parseMembers (fuel : Nat) (s : List Char) (acc : List (String × Json)) :
    Option (Json × List Char) :=
  match fuel with
  | 0 => none
  | fuel + 1 =>
    match s with
    | '"' :: cs =>
      match strBody cs with
      | none => none
      | some (kchars, r1) =>
        match r1.dropWhile jsonWs with
        | ':' :: r2 =>
          match parseVal fuel r2 with
          | none => none
          | some (v, r3) =>
            let acc2 := insertKV acc (String.mk kchars) v
            match r3.dropWhile jsonWs with
            | ',' :: r4 => parseMembers fuel (r4.dropWhile jsonWs) acc2
            | '}' :: r4 => some (Json.obj acc2, r4)
            | _ => none
        | _ => none
    | _ => none

/-- Parse comma-separated array elements up to `]`. -/
def parseElems (fuel : Nat) (s : List Char) (acc : List Json) :
    Option (Json × List Char) :=
  match fuel with
  | 0 => none
  | fuel + 1 =>
    match parseVal fuel s with
    | none => none
    | some (v, r1) =>
      match r1.dropWhile jsonWs with
      | ',' :: r2 => parseElems fuel r2 (acc ++ [v])
      | ']' :: r2 => some (Json.arr (acc ++ [v]), r2)
      | _ => none

end

/-- `json.loads`: parse a complete JSON document; trailing non-whitespace is an
error.  Fuel `2 * length + 2` covers any nesting the input can express. -/
def jsonLoads (s : String) : Option Json :=
  match parseVal (2 * s.length + 2) s.data with
  | some (v, rest) => if (rest.dropWhile jsonWs).isEmpty then some v else none
  | none => none

/-- Hex digit characters (lowercase, as Python emits them). -/
def hexDigit (n : Nat) : Char :=
  Char.ofNat (if n < 10 then 48 + n else 87 + n)

/-- Four-digit lowercase hex. -/
def hex4 (n : Nat) : String :=
  String.mk [hexDigit (n / 4096 % 16), hexDigit (n / 256 % 16),
    hexDigit (n / 16 % 16), hexDigit (n % 16)]

/-- `\uXXXX` escape (with a surrogate pair for astral characters), as
`json.dumps` with its default `ensure_ascii=True` produces. -/
def uEsc (c : Char) : String :=
  let n := c.toNat
  if n ≤ 0xffff then "\\u" ++ hex4 n
  else
    let m := n - 0x10000
    "\\u" ++ hex4 (0xd800 + m / 0x400) ++ "\\u" ++ hex4 (0xdc00 + m % 0x400)

/-- Escape one character of a JSON string as `json.dumps` does by default. -/
def dumpsEsc (c : Char) : String :=
  match List.lookup c
      [('"', "\\\""), ('\\', "\\\\"), ('\n', "\\n"), ('\r', "\\r"),
       ('\t', "\\t"), ('\x08', "\\b"), ('\x0c', "\\f")] with
  | some e => e
  | none => if c.toNat < 0x20 || 0x7e < c.toNat then uEsc c else String.singleton c

mutual

/-- `json.dumps` with default arguments (item separator `", "`, key separator
`": "`, `ensure_ascii=True`). -/
def dumps : Json → String
  | .null => "null"
  | .bool true => "true"
  | .bool false => "false"
  | .num lex => lex
  | .str s => "\"" ++ String.join (s.data.map dumpsEsc) ++ "\""
  | .arr xs => "[" ++ dumpsArr xs ++ "]"
  | .obj kvs => "\x7b" ++ dumpsObj kvs ++ "\x7d"

def dumpsArr : List Json → String
  | [] => ""
  | [x] => dumps x
  | x :: y :: xs => dumps x ++ ", " ++ dumpsArr (y :: xs)

def dumpsObj : List (String × Json) → String
  | [] => ""
  | [(k, v)] => dumps (Json.str k) ++ ": " ++ dumps v
  | (k, v) :: p :: r => dumps (Json.str k) ++ ": " ++ dumps v ++ ", " ++ dumpsObj (p :: r)

end

/-! ## Checklist timestamp cleaning (`backend/main.py`, lines 164-169) -/

/-- The Python runtime type name of a JSON value (used in exception text). -/
def pyTypeName : Json → String
  | .null => "NoneType"
  | .bool _ => "bool"
  | .num lex => if lex.data.any (fun c => c == '.' || c == 'e' || c == 'E') then "float" else "int"
  | .str _ => "str"
  | .arr _ => "list"
  | .obj _ => "dict"

/-- Is the numeric lexeme the number zero (its truthiness in Python)? -/
def numIsZero (lex : String) : Bool :=
  ((lex.data.takeWhile (fun c => c != 'e' && c != 'E')).filter Char.isDigit).all (· == '0')

/-- Python truthiness of a parsed JSON value. -/
def truthy : Json → Bool
  | .null => false
  | .bool b => b
  | .num lex => !numIsZero lex
  | .str s => !s.isEmpty
  | .arr xs => !xs.isEmpty
  | .obj kvs => !kvs.isEmpty

/-- `d[k] = v` on a dict whose key `k` is already present: the key keeps its
position, the value is replaced. -/
def setKV (kvs : List (String × Json)) (k : String) (v : Json) :
    List (String × Json) :=
  kvs.map (fun p => if p.1 == k then (k, v) else p)

/-- `if item.get(k): item[k] = item[k].split('.')[0].split(',')[0][:8]`
on the field list of one checklist item. -/
def cleanItemField (k : String) (kvs : List (String × Json)) :
    Except PyErr (List (String × Json)) :=
  match kvs.lookup k with
  | none => .ok kvs
  | some v =>
    if truthy v then
      match v with
      | .str s => .ok (setKV kvs k (.str (cleanTs s)))
      | _ => .error (.attributeError
          ("'" ++ pyTypeName v ++ "' object has no attribute 'split'"))
    else .ok kvs

/-- The loop body applied to one element of the checklist: normalize its
`timestamp` and then its `timestamp_end` field. -/
def cleanItem : Json → Except PyErr Json
  | .obj kvs => do
    let kvs1 ← cleanItemField "timestamp" kvs
    let kvs2 ← cleanItemField "timestamp_end" kvs1
    .ok (.obj kvs2)
  | v => .error (.attributeError
      ("'" ++ pyTypeName v ++ "' object has no attribute 'get'"))

/-- `for item in report_data.get('checklist', []): ...` — the timestamp
normalization pass over the parsed model response.  Only a `json.JSONDecodeError`
is caught by the surrounding parser `try`; the attribute/type errors modelled
here escape to the generic handler of the endpoint. -/
def cleanReport : Json → Except PyErr Json
  | .obj kvs =>
    match kvs.lookup "checklist" with
    | none => .ok (.obj kvs)
    | some (.arr items) => do
      let items2 ← items.mapM cleanItem
      .ok (.obj (setKV kvs "checklist" (.arr items2)))
    | some (.obj []) => .ok (.obj kvs)
    | some (.obj (_ :: _)) =>
      .error (.attributeError "'str' object has no attribute 'get'")
    | some (.str s) =>
      if s.isEmpty then .ok (.obj kvs)
      else .error (.attributeError "'str' object has no attribute 'get'")
    | some v =>
      .error (.typeError ("'" ++ pyTypeName v ++ "' object is not iterable"))
  | v => .error (.attributeError
      ("'" ++ pyTypeName v ++ "' object has no attribute 'get'"))

/-! ## Persisted reports and progress events -/

/-- The record persisted by `save_report_to_s3` (`backend/s3_client.py`). -/
structure Report where
  id : String
  created_at : String
  source_file : Option String
  model_id : Option String
  transcript : String
  report : String
deriving DecidableEq

/-- `save_report_to_s3`: builds the persisted record and returns the S3 file
key `reports/<id>.json`.  The wall-clock `created_at` value is supplied by the
environment as `now`. -/
def save_report_to_s3 (now report_id transcript report_text : String)
    (source_file model_id : Option String) : Report × String :=
  (⟨report_id, now, source_file, model_id, transcript, report_text⟩,
    "reports/" ++ report_id ++ ".json")

/-- One server-sent progress event, as structured data. -/
inductive Event where
  | stage (status msg : String)
  | complete (report_id msg : String)
  | errorEv (msg : String)
deriving DecidableEq

/-- The Structured-Response Extractor: the cleaning chain followed by JSON
parsing; `none` is the `MalformedResponse` outcome ("Failed to parse AI
response"). -/
def extract_structured (r : String) : Option Json :=
  jsonLoads (cleanResponse r)

/-- The `generate()` body of the text/file entry point
(`backend/main.py`, `analyze_transcript_endpoint`, lines 139-183), given the
raw Bedrock response from the environment.  Returns the emitted event stream
and the list of reports persisted to S3. -/
def analyze_transcript_endpoint (now transcript_text : String)
    (source_filename model_id : Option String) (report_id response : String) :
    List Event × List Report :=
  match extract_structured response with
  | none =>
    ([.stage "analyzing" "Analyzing transcript with AI...",
      .stage "processing" "Processing results...",
      .errorEv "Failed to parse AI response"], [])
  | some v =>
    match cleanReport v with
    | .error e =>
      ([.stage "analyzing" "Analyzing transcript with AI...",
        .stage "processing" "Processing results...",
        .errorEv (pyStr e)], [])
    | .ok v2 =>
      ([.stage "analyzing" "Analyzing transcript with AI...",
        .stage "processing" "Processing results...",
        .stage "saving" "Saving report...",
        .complete report_id "Analysis completed successfully"],
       [(save_report_to_s3 now report_id transcript_text (dumps v2)
          source_filename model_id).1])

/-- `max(1, min(request.batch_count or 1, 10))` — note Python `or` sends both
an absent count and a count of `0` to the default `1`. -/
def batch_count_eff (batch_count : Option Int) : Int :=
  max 1 (min (match batch_count with
    | none => 1
    | some v => if v = 0 then 1 else v) 10)

/-- The `generate()` body of the S3 batch entry point (`backend/main.py`,
`analyze_from_s3_endpoint`, lines 60-86).  `ids i` models the `uuid.uuid4()`
value drawn for task `i`; `responses i` the Bedrock response of task `i`; the
transcript fetched from S3 is supplied directly.  No extraction of the model
responses is performed by this entry point: the raw texts are persisted. -/
def analyze_from_s3_endpoint (now transcript file_key : String)
    (model_id : Option String) (batch_count : Option Int)
    (ids responses : Nat → String) : List Event × List Report :=
  let bc := batch_count_eff batch_count
  let n := bc.toNat
  let saves := (List.range n).map (fun i =>
    save_report_to_s3 now (ids i) transcript (responses i) (some file_key) model_id)
  let report_ids := saves.map (fun s => pyReplace s.2 ".json" "")
  let msg := if 1 < bc then "Generated " ++ toString bc ++ " report(s)"
    else "Analysis completed"
  ([.stage "processing" ("Generating " ++ toString bc ++ " report(s) in parallel..."),
    .complete (report_ids.headD "") msg],
   saves.map Prod.fst)

/-! ## Diarization Formatter (`backend/transcribe.py`, `format_transcript`) -/

/-- One entry of a word item's `alternatives` array (only `content` is read). -/
structure WordAlt where
  content : String
deriving DecidableEq

/-- One element of `data['results']['items']`. -/
structure WordItem where
  start_time : Option String
  alternatives : List WordAlt
deriving DecidableEq

/-- One element of a segment's `items` array (only `start_time` is read). -/
structure SegItem where
  start_time : Option String
deriving DecidableEq

/-- One diarization segment. -/
structure Segment where
  speaker_label : Option String
  start_time : Option String
  items : List SegItem
deriving DecidableEq

/-- `data['results']['speaker_labels']`. -/
structure SpeakerLabels where
  segments : Option (List Segment)
deriving DecidableEq

/-- `data['results']`. -/
structure TResults where
  speaker_labels : Option SpeakerLabels
  items : Option (List WordItem)
deriving DecidableEq

/-- The transcription result document fetched from the job's result URI. -/
structure TData where
  results : Option TResults
deriving DecidableEq

/-- Digit characters to the natural number they spell. -/
def digitsToNat (ds : List Char) : Nat :=
  ds.foldl (fun n c => 10 * n + (c.toNat - 48)) 0

/-- Python `float(str)` on a decimal literal: optional sign, integer digits,
optional fractional digits (the shape of the transcription service's
timestamps; exponent/`inf`/`nan` inputs are out of scope and rejected).
The value is modelled as an exact rational, built with `mkRat` so that
concrete inputs evaluate by kernel reduction. -/
def parseDec (s : String) : Option ℚ :=
  let (sign, t) := match s.data with
    | '-' :: r => ((-1 : Int), r)
    | '+' :: r => ((1 : Int), r)
    | r => ((1 : Int), r)
  let ip := t.takeWhile Char.isDigit
  let rest := t.drop ip.length
  match rest with
  | [] => if ip.isEmpty then none else some (mkRat (sign * Int.ofNat (digitsToNat ip)) 1)
  | '.' :: fr =>
    if fr.all Char.isDigit && !(ip.isEmpty && fr.isEmpty) then
      some (mkRat
        (sign * Int.ofNat (digitsToNat ip * Nat.pow 10 fr.length + digitsToNat fr))
        (Nat.pow 10 fr.length))
    else none
  | _ => none

/-- `float(segment.get('start_time', 0))`: an absent field is the number `0`;
a non-numeric string raises `ValueError`. -/
def pyFloat (v : Option String) : Except PyErr ℚ :=
  match v with
  | none => .ok 0
  | some s =>
    match parseDec s with
    | some q => .ok q
    | none => .error (.valueError ("could not convert string to float: '" ++ s ++ "'"))

/-- `f"{n:02d}"`. -/
def pad2 (n : ℤ) : String :=
  let s := toString n
  if s.length = 1 then "0" ++ s else s

/-- `format_time` (`backend/transcribe.py`, lines 109-113):
`hours = int(seconds // 3600)`, `minutes = int((seconds % 3600) // 60)`,
`secs = int(seconds % 60)`.  Each value is the floor of the corresponding
exact quotient (Python `//` floors, `%` for a positive divisor returns the
floor remainder, and `int()` truncates the already-integral results), computed
here on the rational `num / den` with integer floor division. -/
def format_time (seconds : ℚ) : String :=
  let den : Int := Int.ofNat seconds.den
  let hours := Int.fdiv seconds.num (3600 * den)
  let minutes := Int.fdiv (seconds.num - 3600 * den * hours) (60 * den)
  let secs := Int.fdiv (seconds.num - 60 * den * Int.fdiv seconds.num (60 * den)) den
  pad2 hours ++ ":" ++ pad2 minutes ++ ":" ++ pad2 secs

/-- The speaker naming convention of `format_transcript`, line 90:
`"Student" if speaker_label == "spk_0" else "Patient"`. -/
def speakerFor (label : String) : String :=
  if label == "spk_0" then "Student" else "Patient"

/-- The inner loop of `format_transcript` for one segment item: the first word
item whose `start_time` equals the segment item's `start_time` contributes
`word_item['alternatives'][0]['content']`; no match contributes nothing. -/
def resolveWord (items : List WordItem) (it : SegItem) :
    Except PyErr (Option String) :=
  match items.find? (fun w => w.start_time == it.start_time) with
  | none => .ok none
  | some w =>
    match w.alternatives with
    | [] => .error (.indexError "list index out of range")
    | a :: _ => .ok (some a.content)

/-- The `words` list accumulated across a segment's items. -/
def collectWords (items : List WordItem) : List SegItem → Except PyErr (List String)
  | [] => .ok []
  | it :: r => do
    let w? ← resolveWord items it
    let ws ← collectWords items r
    match w? with
    | some w => .ok (w :: ws)
    | none => .ok ws

/-- The per-segment body of `format_transcript`: the produced line, or `none`
when the segment resolves no words (`if words:` fails). -/
def segLine (items : List WordItem) (seg : Segment) :
    Except PyErr (Option String) := do
  let speaker := speakerFor (seg.speaker_label.getD "spk_0")
  let st ← pyFloat seg.start_time
  let words ← collectWords items seg.items
  if words.isEmpty then .ok none
  else .ok (some ("[" ++ format_time st ++ "] " ++ speaker ++ ": " ++
    String.intercalate " " words))

/-- The `lines` list accumulated across segments. -/
def format_lines (items : List WordItem) : List Segment → Except PyErr (List String)
  | [] => .ok []
  | seg :: r => do
    let l? ← segLine items seg
    let ls ← format_lines items r
    match l? with
    | some l => .ok (l :: ls)
    | none => .ok ls

/-- `format_transcript` (`backend/transcribe.py`, lines 78-106). -/
def format_transcript (data : TData) : Except PyErr String :=
  match data.results with
  | none => .ok ""
  | some res =>
    let segments := (res.speaker_labels.bind (fun sl => sl.segments)).getD []
    let items := res.items.getD []
    do
      let ls ← format_lines items segments
      .ok (String.intercalate "\n" ls)

/-! ## External Job Poller (`backend/transcribe.py`, `transcribe_audio_file`) -/

/-- The externally observable behaviour of the transcription service for one
job: the successive statuses returned by `get_transcription_job`, the result
document served at the transcript URI on completion, and whether
`delete_transcription_job` succeeds. -/
structure TranscribeEnv where
  statuses : List String
  transcript_data : TData
  delete_ok : Bool

/-- The first status at which `job_status in ['COMPLETED', 'FAILED']` breaks
the poll loop; `none` when the trace never reaches a terminal status (the
source loop would poll forever). -/
def firstTerminal : List String → Option String
  | [] => none
  | s :: r => if s == "COMPLETED" || s == "FAILED" then some s else firstTerminal r

/-- Outcome of one `transcribe_audio_file` call: the returned transcript or
the raised exception, and how many `delete_transcription_job` calls were made. -/
structure TranscribeOutcome where
  result : Except PyErr String
  delete_calls : Nat

/-- `transcribe_audio_file` (`backend/transcribe.py`, lines 34-75) from the
poll loop on: poll to a terminal status, raise on FAILED, otherwise fetch the
result document, format it, then delete the job record.  The delete call is
not wrapped in any handler, so its failure propagates.  `none` models the
nonterminating poll loop. -/
def transcribe_audio_file (env : TranscribeEnv) : Option TranscribeOutcome :=
  match firstTerminal env.statuses with
  | none => none
  | some st =>
    if st == "FAILED" then some ⟨.error (.exception "Transcription failed"), 0⟩
    else
      match format_transcript env.transcript_data with
      | .error e => some ⟨.error e, 0⟩
      | .ok t =>
        if env.delete_ok then some ⟨.ok t, 1⟩
        else some ⟨.error (.exception "delete_transcription_job failed"), 1⟩

/-! ## Prompt loading (`backend/bedrock.py`, `load_prompt`) -/

/-- The built-in literal fallback template of `load_prompt`. -/
def default_prompt : String :=
  "You are an expert medical educator evaluating an OSCE (Objective Structured Clinical Examination) performance.\n\nAnalyze the following transcript and provide a comprehensive evaluation including:\n- Overall assessment\n- Clinical knowledge demonstrated\n- Communication skills\n- Physical examination technique\n- Key strengths and areas for improvement\n- Critical actions that were missed (if any)\n\nTranscript:\n{transcript}"

/-- `load_prompt` (`backend/bedrock.py`, lines 22-42).  The filesystem next to
the module is modelled as a partial map from file name to contents (`none`
when `Path.exists()` is false). -/
def load_prompt (fs : String → Option String) (prompt_name : String) : String :=
  match fs (prompt_name ++ ".txt") with
  | some t => t
  | none =>
    match fs "prompt.txt" with
    | some t => t
    | none => default_prompt

/-! ## Helper lemmas -/

lemma strMk_data (s : String) : String.mk s.data = s := rfl

lemma str_append_left_cancel (a b c : String) (h : a ++ b = a ++ c) : b = c := by
  have hd : a.data ++ b.data = a.data ++ c.data := by
    rw [← String.data_append, ← String.data_append, h]
  cases b
  cases c
  exact congrArg String.mk (List.append_cancel_left hd)

lemma takeWhile_take_of (p : Char → Bool) :
    ∀ (l : List Char) (n : Nat), (∀ c ∈ l.take n, p c = true) →
      (l.takeWhile p).take n = l.take n := by
  intro l
  induction l with
  | nil => intro n _; simp
  | cons c cs ih =>
    intro n h
    cases n with
    | zero => simp
    | succ m =>
      have hc : p c = true := h c (by simp)
      simp only [List.takeWhile_cons, hc, if_true, List.take_succ_cons]
      rw [ih m (fun x hx => h x (by simp [hx]))]

lemma digit_ne_sep {c : Char} (hc : c.isDigit = true) :
    (c != '.') = true ∧ (c != ',') = true := by
  constructor <;>
  · simp only [bne_iff_ne, ne_eq]
    intro h
    subst h
    exact absurd hc (by decide)

lemma isHHMMSS_no_sep {l : List Char} (h : isHHMMSS (String.mk l) = true) :
    ∀ c ∈ l, (c != '.') = true ∧ (c != ',') = true := by
  match l with
  | [a, b, c, d, e, f, g, k] =>
    unfold isHHMMSS at h
    simp only [Bool.and_eq_true, beq_iff_eq] at h
    obtain ⟨⟨⟨⟨⟨⟨⟨ha, hb⟩, hc⟩, hd⟩, he⟩, hf⟩, hg⟩, hk⟩ := h
    intro x hx
    simp only [List.mem_cons, List.not_mem_nil, or_false] at hx
    rcases hx with rfl | rfl | rfl | rfl | rfl | rfl | rfl | rfl
    · exact digit_ne_sep ha
    · exact digit_ne_sep hb
    · subst hc; exact ⟨by decide, by decide⟩
    · exact digit_ne_sep hd
    · exact digit_ne_sep he
    · subst hf; exact ⟨by decide, by decide⟩
    · exact digit_ne_sep hg
    · exact digit_ne_sep hk
  | [] => exact absurd h (by decide)
  | [a] => exact absurd h (by simp [isHHMMSS])
  | [a, b] => exact absurd h (by simp [isHHMMSS])
  | [a, b, c] => exact absurd h (by simp [isHHMMSS])
  | [a, b, c, d] => exact absurd h (by simp [isHHMMSS])
  | [a, b, c, d, e] => exact absurd h (by simp [isHHMMSS])
  | [a, b, c, d, e, f] => exact absurd h (by simp [isHHMMSS])
  | [a, b, c, d, e, f, g] => exact absurd h (by simp [isHHMMSS])
  | a :: b :: c :: d :: e :: f :: g :: k :: m :: rest =>
    exact absurd h (by simp [isHHMMSS])

/-! ## Claim C2 -/

/-- C2 counterexample: with a single detected speaker labelled `spk_1` (so
`spk_1` is the first detected speaker label), the Diarization Formatter labels
the line `Patient`, not `Student`: the convention is keyed to the literal label
`spk_0`, not to detection order. -/
theorem C2_counterexample :
    format_transcript ⟨some ⟨some ⟨some [⟨some "spk_1", some "0.0", [⟨some "0.0"⟩]⟩]⟩,
      some [⟨some "0.0", [⟨"hello"⟩]⟩]⟩⟩ = .ok "[00:00:00] Patient: hello" := rfl

/-- C2 (amended): the Diarization Formatter labels a speaker `Student` exactly
when its label is the literal `spk_0` (the default when the label is absent)
and labels every other speaker label `Patient`; every produced line carries
that speaker name; in particular the labels `spk_0`/`spk_1` come out as
`Student`/`Patient`. -/
theorem C2_speaker_convention :
    (∀ l : String, l ≠ "spk_0" → speakerFor l = "Patient") ∧
    speakerFor "spk_0" = "Student" ∧
    (∀ (items : List WordItem) (seg : Segment) (line : String),
      segLine items seg = .ok (some line) →
      ∃ ts txt, line = "[" ++ ts ++ "] " ++
        speakerFor (seg.speaker_label.getD "spk_0") ++ ": " ++ txt) ∧
    format_transcript ⟨some ⟨some ⟨some [⟨some "spk_0", some "0.0", [⟨some "0.0"⟩]⟩]⟩,
      some [⟨some "0.0", [⟨"hello"⟩]⟩]⟩⟩ = .ok "[00:00:00] Student: hello" := by
  refine ⟨?_, rfl, ?_, rfl⟩
  · intro l hl
    simp [speakerFor, hl]
  · intro items seg line h
    unfold segLine at h
    cases hf : pyFloat seg.start_time with
    | error e => rw [hf] at h; simp [Bind.bind, Except.bind] at h
    | ok st =>
      rw [hf] at h
      cases hw : collectWords items seg.items with
      | error e => rw [hw] at h; simp [Bind.bind, Except.bind] at h
      | ok ws =>
        rw [hw] at h
        by_cases he : ws.isEmpty
        · simp [Bind.bind, Except.bind, he] at h
        · simp [Bind.bind, Except.bind, he] at h
          exact ⟨format_time st, String.intercalate " " ws, h.symm⟩

/-- C2 witness: the amended convention applied at `spk_1` and at a concrete
produced line. -/
theorem C2_speaker_convention_witness :
    speakerFor "spk_1" = "Patient" ∧
    ∃ ts txt, "[00:00:00] Patient: hello" = "[" ++ ts ++ "] " ++
      speakerFor ((Segment.mk (some "spk_1") (some "0.0")
        [⟨some "0.0"⟩]).speaker_label.getD "spk_0") ++ ": " ++ txt :=
  ⟨C2_speaker_convention.1 "spk_1" (by decide),
   C2_speaker_convention.2.2.1 [⟨some "0.0", [⟨"hello"⟩]⟩]
     ⟨some "spk_1", some "0.0", [⟨some "0.0"⟩]⟩
     "[00:00:00] Patient: hello" (by rfl)⟩

/-! ## Claim C3 -/

/-- C3 counterexample: a job that completes but whose job-record delete fails
makes `transcribe_audio_file` raise (the delete's failure propagates) and the
formatted transcript is lost — the delete is neither best-effort nor
unreported, contradicting the claim. -/
theorem C3_counterexample :
    transcribe_audio_file ⟨["COMPLETED"], ⟨none⟩, false⟩ =
      some ⟨.error (.exception "delete_transcription_job failed"), 1⟩ := rfl

/-- C3 (amended): if the job reaches FAILED the poller raises the
transcription-failed error, produces no transcript and issues no delete; if it
reaches COMPLETED it fetches and formats the result and issues exactly one
delete of the job record, but the delete is not best-effort: when the delete
fails, the failure propagates and no transcript is returned; when it succeeds,
exactly one formatted transcript is returned. -/
theorem C3_poller (env : TranscribeEnv) :
    (firstTerminal env.statuses = some "FAILED" →
      transcribe_audio_file env =
        some ⟨.error (.exception "Transcription failed"), 0⟩) ∧
    (firstTerminal env.statuses = some "COMPLETED" →
      ∀ t, format_transcript env.transcript_data = .ok t →
        (env.delete_ok = true → transcribe_audio_file env = some ⟨.ok t, 1⟩) ∧
        (env.delete_ok = false → transcribe_audio_file env =
          some ⟨.error (.exception "delete_transcription_job failed"), 1⟩)) := by
  constructor
  · intro h
    simp [transcribe_audio_file, h]
  · intro h t ht
    constructor <;> intro hd <;> simp [transcribe_audio_file, h, ht, hd]

/-- C3 witness: the spec's own scenario — three polls SUBMITTED, IN_PROGRESS,
COMPLETED with a succeeding delete yield exactly one formatted transcript and
exactly one delete call. -/
theorem C3_poller_witness :
    transcribe_audio_file ⟨["SUBMITTED", "IN_PROGRESS", "COMPLETED"], ⟨none⟩, true⟩ =
      some ⟨.ok "", 1⟩ :=
  ((C3_poller ⟨["SUBMITTED", "IN_PROGRESS", "COMPLETED"], ⟨none⟩, true⟩).2
    (by rfl) "" (by rfl)).1 (by rfl)

/-! ## Claim C4 -/

/-- C4 counterexample: normalization does not guarantee the canonical
8-character `HH:MM:SS` shape regardless of the model's formatting — the
checklist value `"1:02"` normalizes to itself, which is not of that shape. -/
theorem C4_counterexample :
    cleanTs "1:02" = "1:02" ∧ isHHMMSS (cleanTs "1:02") = false ∧
    cleanItem (.obj [("timestamp", .str "1:02")]) =
      .ok (.obj [("timestamp", .str "1:02")]) :=
  ⟨rfl, rfl, rfl⟩

/-- C4 (amended): timestamp normalization strips any suffix introduced by a
`.` or `,` separator and truncates to the first 8 characters; the two quoted
examples hold; an 8-character value with no separator is unchanged; and the
canonical 8-character shape is obtained exactly when the first 8 characters of
the value already form `HH:MM:SS` — not for arbitrary model formatting.  Both
the `timestamp` and `timestamp_end` fields of a checklist entry are normalized
this way. -/
theorem C4_timestamp_normalization :
    cleanTs "00:01:02.345" = "00:01:02" ∧
    cleanTs "00:01:02,999" = "00:01:02" ∧
    (∀ s : String, s.data.length = 8 → (∀ c ∈ s.data, (c != '.') = true ∧ (c != ',') = true) →
      cleanTs s = s) ∧
    (∀ s : String, isHHMMSS (String.mk (s.data.take 8)) = true →
      cleanTs s = String.mk (s.data.take 8)) ∧
    (∀ a b : String, a ≠ "" → b ≠ "" →
      cleanItem (.obj [("timestamp", .str a), ("timestamp_end", .str b)]) =
        .ok (.obj [("timestamp", .str (cleanTs a)), ("timestamp_end", .str (cleanTs b))])) := by
  refine ⟨rfl, rfl, ?_, ?_, ?_⟩
  · intro s hlen hsep
    unfold cleanTs
    rw [List.takeWhile_eq_self_iff.mpr (fun c hc => (hsep c hc).1),
      List.takeWhile_eq_self_iff.mpr (fun c hc => (hsep c hc).2),
      List.take_of_length_le (le_of_eq hlen), strMk_data]
  · intro s h
    have hsep := isHHMMSS_no_sep h
    unfold cleanTs
    have h1 : (s.data.takeWhile (· != '.')).take 8 = s.data.take 8 :=
      takeWhile_take_of _ s.data 8 (fun c hc => (hsep c hc).1)
    have h2 : ((s.data.takeWhile (· != '.')).takeWhile (· != ',')).take 8 =
        (s.data.takeWhile (· != '.')).take 8 :=
      takeWhile_take_of _ _ 8 (fun c hc => (hsep c (h1 ▸ hc)).2)
    rw [h2, h1]
  · intro a b ha hb
    have ha2 : a.isEmpty = false := by
      cases hia : a.isEmpty
      · rfl
      · exact absurd ((String.isEmpty_iff a).mp hia) ha
    have hb2 : b.isEmpty = false := by
      cases hib : b.isEmpty
      · rfl
      · exact absurd ((String.isEmpty_iff b).mp hib) hb
    simp [cleanItem, cleanItemField, List.lookup, truthy, setKV, ha2, hb2,
      Bind.bind, Except.bind]

/-- C4 witness: the amended normalization applied at concrete values — an
8-character separator-free value is unchanged, a value with an `HH:MM:SS`
prefix is truncated to it, and a checklist entry has both fields normalized. -/
theorem C4_timestamp_normalization_witness :
    cleanTs "12:34:56" = "12:34:56" ∧
    cleanTs "12:34:56:789" = "12:34:56" ∧
    cleanItem (.obj [("timestamp", .str "00:01:02.345"), ("timestamp_end", .str "00:01:03,999")]) =
      .ok (.obj [("timestamp", .str "00:01:02"), ("timestamp_end", .str "00:01:03")]) := by
  refine ⟨C4_timestamp_normalization.2.2.1 "12:34:56" (by decide) (by decide), ?_, ?_⟩
  · have h := C4_timestamp_normalization.2.2.2.1 "12:34:56:789" (by decide)
    simpa using h
  · have h := C4_timestamp_normalization.2.2.2.2 "00:01:02.345" "00:01:03,999"
      (by decide) (by decide)
    simpa using h

/-! ## Claim C9 -/

/-- C9: prompt-template loading is total and never fails on a missing file —
it returns the requested-name file's contents when that file exists, else the
default `prompt.txt` contents when that exists, else the built-in literal
template. -/
theorem C9_prompt_fallback (fs : String → Option String) (name : String) :
    (∀ t, fs (name ++ ".txt") = some t → load_prompt fs name = t) ∧
    (fs (name ++ ".txt") = none → ∀ t, fs "prompt.txt" = some t →
      load_prompt fs name = t) ∧
    (fs (name ++ ".txt") = none → fs "prompt.txt" = none →
      load_prompt fs name = default_prompt) := by
  refine ⟨?_, ?_, ?_⟩ <;> intros <;> simp_all [load_prompt]

/-- C9 witness: the first fallback branch at a concrete filesystem. -/
theorem C9_prompt_fallback_witness :
    load_prompt (fun n => if n = "custom.txt" then some "CUSTOM" else none) "custom" =
      "CUSTOM" :=
  (C9_prompt_fallback (fun n => if n = "custom.txt" then some "CUSTOM" else none)
    "custom").1 "CUSTOM" (by decide)

/-! ## Brace-pair lemmas for the extractor -/

lemma findIdx1_get (p : Char → Bool) :
    ∀ (s : List Char) (st : Nat), findIdx1 p s = some st →
      ∃ h : st < s.length, p (s.get ⟨st, h⟩) = true := by
  intro s
  induction s with
  | nil => intro st h; simp [findIdx1] at h
  | cons c cs ih =>
    intro st h
    by_cases hc : p c
    · simp [findIdx1, hc] at h
      subst h
      exact ⟨by simp, hc⟩
    · simp [findIdx1, hc] at h
      obtain ⟨m, hm, rfl⟩ := h
      obtain ⟨hlt, hp⟩ := ih m hm
      exact ⟨by simpa using Nat.succ_lt_succ hlt, hp⟩

lemma findIdx1_dropWhile (p : Char → Bool) :
    ∀ (s : List Char) (st : Nat), findIdx1 p s = some st →
      s.dropWhile (fun c => !(p c)) = s.drop st := by
  intro s
  induction s with
  | nil => intro st h; simp [findIdx1] at h
  | cons c cs ih =>
    intro st h
    by_cases hc : p c
    · simp [findIdx1, hc] at h
      subst h
      simp [List.dropWhile_cons, hc]
    · simp [findIdx1, hc] at h
      obtain ⟨m, hm, rfl⟩ := h
      simp [List.dropWhile_cons, hc]
      exact ih m hm

lemma rfindIdx1_get (p : Char → Bool) :
    ∀ (s : List Char) (j : Nat), rfindIdx1 p s = some j →
      ∃ h : j < s.length, p (s.get ⟨j, h⟩) = true := by
  intro s
  induction s with
  | nil => intro j h; simp [rfindIdx1] at h
  | cons c cs ih =>
    intro j h
    unfold rfindIdx1 at h
    cases hr : rfindIdx1 p cs with
    | some m =>
      rw [hr] at h
      injection h with h
      subst h
      obtain ⟨hlt, hp⟩ := ih m hr
      exact ⟨by simpa using Nat.succ_lt_succ hlt, hp⟩
    | none =>
      rw [hr] at h
      by_cases hc : p c
      · simp [hc] at h
        subst h
        exact ⟨by simp, hc⟩
      · simp [hc] at h

lemma get_mem_drop :
    ∀ (s : List Char) (k j : Nat) (h : j < s.length), k ≤ j →
      s.get ⟨j, h⟩ ∈ s.drop k := by
  intro s
  induction s with
  | nil => intro k j h _; simp at h
  | cons c cs ih =>
    intro k j h hk
    cases k with
    | zero => exact List.get_mem _ _ _
    | succ k2 =>
      cases j with
      | zero => omega
      | succ j2 =>
        simpa using ih k2 j2 (by simpa using h) (by omega)

/-- When the text has no `{` later followed by a `}`, the brace-slicing step
leaves it unchanged. -/
lemma braceSliceL_of_pairFree (s : List Char) (hfree : bracePairFree s = true) :
    braceSliceL s = s := by
  unfold braceSliceL
  cases hf : findIdx1 (· == '{') s with
  | none => rfl
  | some st =>
    cases hr : rfindIdx1 (· == '}') s with
    | none => simp
    | some j =>
      by_cases hlt : st < j + 1
      · exfalso
        obtain ⟨hjl, hpj⟩ := rfindIdx1_get _ s j hr
        obtain ⟨hstl, hpst⟩ := findIdx1_get _ s st hf
        have hij : st < j := by
          by_contra hge
          have hstj : st = j := by omega
          subst hstj
          have h1 : s.get ⟨st, hstl⟩ = '{' := beq_iff_eq.mp hpst
          have h2 : s.get ⟨st, hstl⟩ = '}' := beq_iff_eq.mp hpj
          rw [h1] at h2
          exact absurd h2 (by decide)
        have hdw : s.dropWhile (fun c => !(c == '{')) = s.drop st :=
          findIdx1_dropWhile _ s st hf
        have hmem0 : s.get ⟨j, hjl⟩ ∈ s.drop (st + 1) :=
          get_mem_drop s (st + 1) j hjl (by omega)
        have hmem : '}' ∈ (s.dropWhile (fun c => !(c == '{'))).drop 1 := by
          rw [hdw, List.drop_drop]
          rwa [beq_iff_eq.mp hpj] at hmem0
        have hfree2 : ¬ ('}' ∈ (s.dropWhile (fun c => c != '{')).drop 1) := by
          unfold bracePairFree at hfree
          simpa using hfree
        exact hfree2 hmem
      · simp [hlt]

/-! ## Claim C6 -/

/-- C6: the Structured-Response Extractor applies its steps in order — trim,
then fence stripping (a ```` ```json ```` block's interior if present, else the
first fenced block's interior), then the first-`{`-to-last-`}` slice, then JSON
parsing; when no `{` precedes a `}` the slicing step changes nothing; and the
two quoted examples produce exactly the quoted objects. -/
theorem C6_extractor_order :
    (∀ r : String, extract_structured r =
      jsonLoads (braceSliceS (unfenceS (pyStripS r)))) ∧
    (∀ s : String, bracePairFree s.data = true → braceSliceS s = s) ∧
    extract_structured " ```json\n\x7b\"checklist\":[]\x7d\n``` " =
      some (Json.obj [("checklist", Json.arr [])]) ∧
    extract_structured
        "Here is the result: \x7b\"checklist\":[\x7b\"item\":\"x\",\"status\":\"Yes\"\x7d]\x7d Thanks!" =
      some (Json.obj [("checklist", Json.arr
        [Json.obj [("item", Json.str "x"), ("status", Json.str "Yes")]])]) := by
  refine ⟨fun _ => rfl, ?_, rfl, rfl⟩
  intro s h
  unfold braceSliceS
  rw [braceSliceL_of_pairFree s.data h, strMk_data]

/-- C6 witness: the slicing step is the identity on a concrete brace-free
text. -/
theorem C6_extractor_order_witness : braceSliceS "no braces at all" = "no braces at all" :=
  C6_extractor_order.2.1 "no braces at all" (by rfl)

/-! ## Claim C5 -/

/-- C5 counterexample: `"123"` contains no `{`/`}` pair, yet the extractor
does not raise `MalformedResponse` — the slice parses as the JSON number 123,
a parsed record is returned, and the endpoint then fails later with an
attribute error whose message differs from the `MalformedResponse` one. -/
theorem C5_counterexample :
    bracePairFree "123".data = true ∧
    extract_structured "123" = some (Json.num "123") ∧
    (analyze_transcript_endpoint "T" "t" none none "rid" "123").1 =
      [.stage "analyzing" "Analyzing transcript with AI...",
       .stage "processing" "Processing results...",
       .errorEv "'int' object has no attribute 'get'"] ∧
    "'int' object has no attribute 'get'" ≠ "Failed to parse AI response" :=
  ⟨rfl, rfl, rfl, by decide⟩

/-- C5 (amended): for every model-response text containing no `{`/`}` pair
whose cleaned text also fails to parse as JSON, the extractor reports the
`MalformedResponse` failure ("Failed to parse AI response"), the run persists
no report, and the failure is terminal for the single generation attempt of
the run — the event stream ends at that error with no retry.  (A brace-free
text that is itself valid JSON, such as `"123"`, parses and is not rejected.) -/
theorem C5_malformed_terminal (now t : String) (sf mid : Option String)
    (rid r : String)
    (h1 : bracePairFree r.data = true)
    (h2 : extract_structured r = none) :
    analyze_transcript_endpoint now t sf mid rid r =
      ([.stage "analyzing" "Analyzing transcript with AI...",
        .stage "processing" "Processing results...",
        .errorEv "Failed to parse AI response"], []) := by
  simp [analyze_transcript_endpoint, h2]

/-- C5 witness: the terminal MalformedResponse outcome at a concrete
brace-free, non-JSON response. -/
theorem C5_malformed_terminal_witness :
    analyze_transcript_endpoint "T" "t" none none "rid" "it went well" =
      ([.stage "analyzing" "Analyzing transcript with AI...",
        .stage "processing" "Processing results...",
        .errorEv "Failed to parse AI response"], []) :=
  C5_malformed_terminal "T" "t" none none "rid" "it went well" (by rfl) (by rfl)

/-! ## Claim C8 -/

/-- C8: the Diarization Formatter returns an empty transcript (not an error)
when the diarization data is absent or there are zero segments, and a segment
whose well-formed start time parses but none of whose item start-times matches
any word item produces no line and is dropped from the output, not an error. -/
theorem C8_formatter_empty_and_dropped :
    format_transcript ⟨none⟩ = .ok "" ∧
    (∀ res : TResults, (res.speaker_labels.bind (fun sl => sl.segments)).getD [] = [] →
      format_transcript ⟨some res⟩ = .ok "") ∧
    (∀ (items : List WordItem) (seg : Segment) (q : ℚ),
      pyFloat seg.start_time = .ok q →
      (∀ it ∈ seg.items, items.find? (fun w => w.start_time == it.start_time) = none) →
      segLine items seg = .ok none) ∧
    (∀ (items : List WordItem) (pre post : List Segment) (seg : Segment),
      segLine items seg = .ok none →
      format_lines items (pre ++ seg :: post) = format_lines items (pre ++ post)) := by
  refine ⟨rfl, ?_, ?_, ?_⟩
  · intro res h
    simp [format_transcript, h, format_lines]
    rfl
  · intro items seg q hq hnone
    have aux : ∀ l : List SegItem,
        (∀ it ∈ l, items.find? (fun w => w.start_time == it.start_time) = none) →
        collectWords items l = .ok [] := by
      intro l
      induction l with
      | nil => intro _; rfl
      | cons it r ih =>
        intro h
        have h1 : items.find? (fun w => w.start_time == it.start_time) = none :=
          h it (by simp)
        simp [collectWords, resolveWord, h1, Bind.bind, Except.bind,
          ih (fun x hx => h x (by simp [hx]))]
    simp [segLine, hq, aux seg.items hnone, Bind.bind, Except.bind]
  · intro items pre post seg hseg
    induction pre with
    | nil =>
      simp only [List.nil_append, format_lines, hseg, Bind.bind, Except.bind]
      cases format_lines items post <;> rfl
    | cons c cs ih =>
      simp only [List.cons_append, format_lines, Bind.bind, List.append_eq]
      rw [ih]

/-- C8 witness: the empty and dropped cases at concrete inputs — a result with
no diarization block formats to the empty transcript, and a segment whose
only item matches no word contributes no line. -/
theorem C8_formatter_empty_and_dropped_witness :
    format_transcript ⟨some ⟨none, none⟩⟩ = .ok "" ∧
    segLine [] ⟨some "spk_0", none, [⟨some "1.0"⟩]⟩ = .ok none ∧
    format_lines [] [⟨some "spk_0", none, [⟨some "1.0"⟩]⟩] = format_lines [] [] :=
  ⟨C8_formatter_empty_and_dropped.2.1 ⟨none, none⟩ (by rfl),
   C8_formatter_empty_and_dropped.2.2.1 [] ⟨some "spk_0", none, [⟨some "1.0"⟩]⟩ 0
     (by rfl) (by intro it _; rfl),
   C8_formatter_empty_and_dropped.2.2.2 [] [] [] ⟨some "spk_0", none, [⟨some "1.0"⟩]⟩
     (C8_formatter_empty_and_dropped.2.2.1 [] ⟨some "spk_0", none, [⟨some "1.0"⟩]⟩ 0
       (by rfl) (by intro it _; rfl))⟩

/-! ## Claim C7 -/

/-- C7: the effective generation count of a batch request is the requested
count clamped to `[1, 10]` (15 behaves as 10, 0 as 1), and a successful batch
run persists one report per effective count, pairing each freshly generated
identifier with the result of the same submission index, in submission order;
when the drawn identifiers are pairwise distinct (uuid freshness), the
persisted report identifiers are pairwise distinct. -/
theorem C7_batch_clamp_and_order :
    batch_count_eff (some 15) = 10 ∧
    batch_count_eff (some 0) = 1 ∧
    (∀ k : Int, batch_count_eff (some k) = max 1 (min k 10)) ∧
    (∀ (now t fk : String) (mid : Option String) (bc : Option Int)
        (ids responses : Nat → String),
      (analyze_from_s3_endpoint now t fk mid bc ids responses).2 =
        (List.range (batch_count_eff bc).toNat).map (fun i =>
          ⟨ids i, now, some fk, mid, t, responses i⟩) ∧
      ((∀ i, i < (batch_count_eff bc).toNat → ∀ j, j < (batch_count_eff bc).toNat →
          ids i = ids j → i = j) →
        ((analyze_from_s3_endpoint now t fk mid bc ids responses).2.map
          Report.id).Nodup)) := by
  refine ⟨by simp [batch_count_eff], by simp [batch_count_eff], ?_, ?_⟩
  · intro k
    unfold batch_count_eff
    by_cases hk : k = 0
    · subst hk; simp
    · simp [hk]
  · intro now t fk mid bc ids responses
    constructor
    · simp [analyze_from_s3_endpoint, save_report_to_s3, List.map_map, Function.comp]
    · intro hinj
      have hmap : ((analyze_from_s3_endpoint now t fk mid bc ids responses).2.map
          Report.id) = (List.range (batch_count_eff bc).toNat).map ids := by
        simp [analyze_from_s3_endpoint, save_report_to_s3, List.map_map, Function.comp]
      rw [hmap]
      exact (List.nodup_range _).map_on
        (fun i hi j hj heq =>
          hinj i (List.mem_range.mp hi) j (List.mem_range.mp hj) heq)

/-- C7 witness: a batch of 3 with distinct drawn identifiers persists reports
with pairwise distinct identifiers. -/
theorem C7_batch_clamp_and_order_witness :
    ((analyze_from_s3_endpoint "T" "t" "f.txt" none (some 3)
      (fun i => toString i) (fun _ => "resp")).2.map Report.id).Nodup :=
  (C7_batch_clamp_and_order.2.2.2 "T" "t" "f.txt" none (some 3)
    (fun i => toString i) (fun _ => "resp")).2 (by decide)

/-! ## Claim C10 -/

lemma replace_dotjson (l : List Char) (h : ∀ c ∈ l, c ≠ '.') :
    replaceSubGo '.' ['j', 's', 'o', 'n'] [] (l ++ ['.', 'j', 's', 'o', 'n']) = l := by
  induction l with
  | nil => simp [replaceSubGo, startsWithL]
  | cons c cs ih =>
    have hc : c ≠ '.' := h c (by simp)
    have hs : startsWithL ('.' :: ['j', 's', 'o', 'n'])
        (c :: (cs ++ ['.', 'j', 's', 'o', 'n'])) = false := by
      simp only [startsWithL, Bool.and_eq_false_iff]
      left
      exact beq_eq_false_iff_ne.mpr (fun heq => hc heq.symm)
    rw [List.cons_append]
    unfold replaceSubGo
    rw [hs]
    simp only [Bool.false_eq_true, if_false]
    rw [ih (fun x hx => h x (by simp [hx]))]

lemma pyReplace_report_key (id : String) (h : ∀ c ∈ id.data, c ≠ '.') :
    pyReplace ("reports/" ++ id ++ ".json") ".json" "" = "reports/" ++ id := by
  unfold pyReplace
  have hdata : ("reports/" ++ id ++ ".json").data =
      ("reports/".data ++ id.data) ++ ['.', 'j', 's', 'o', 'n'] := by
    rw [String.data_append, String.data_append]
  simp only [hdata]
  have hpre : ∀ c ∈ "reports/".data, c ≠ '.' := by decide
  rw [replace_dotjson ("reports/".data ++ id.data)
    (fun c hc => by
      rcases List.mem_append.mp hc with hm | hm
      · exact hpre c hm
      · exact h c hm)]
  rw [← String.data_append, strMk_data]

/-- C10: a successful S3-batch run with effective count N persists all N
reports, yet its event stream consists of one processing event and one
terminating complete event that carries only the key-derived identifier of the
first submitted report; under distinctness of the drawn identifiers, that
exposed identifier differs from the identifier of every other persisted
report, so the other N-1 identifiers are not exposed to the caller. -/
theorem C10_first_id_only (now t fk : String) (mid : Option String)
    (bc : Option Int) (ids responses : Nat → String)
    (hdot : ∀ i, i < (batch_count_eff bc).toNat → ∀ c ∈ (ids i).data, c ≠ '.')
    (hinj : ∀ i, i < (batch_count_eff bc).toNat → ∀ j, j < (batch_count_eff bc).toNat →
      ids i = ids j → i = j) :
    (analyze_from_s3_endpoint now t fk mid bc ids responses).2.length =
      (batch_count_eff bc).toNat ∧
    (∃ m1 m2, (analyze_from_s3_endpoint now t fk mid bc ids responses).1 =
      [.stage "processing" m1, .complete ("reports/" ++ ids 0) m2]) ∧
    (∀ i, i < (batch_count_eff bc).toNat → i ≠ 0 →
      "reports/" ++ ids 0 ≠ "reports/" ++ ids i) := by
  have hpos : 0 < (batch_count_eff bc).toNat := by
    unfold batch_count_eff
    have h1 : (1 : Int) ≤ max 1 (min (match bc with
      | none => 1
      | some v => if v = 0 then 1 else v) 10) := le_max_left _ _
    omega
  refine ⟨?_, ?_, ?_⟩
  · simp [analyze_from_s3_endpoint]
  · refine ⟨"Generating " ++ toString (batch_count_eff bc) ++ " report(s) in parallel...",
      if 1 < batch_count_eff bc then "Generated " ++ toString (batch_count_eff bc) ++
        " report(s)" else "Analysis completed", ?_⟩
    obtain ⟨m, hm⟩ : ∃ m, (batch_count_eff bc).toNat = m + 1 :=
      ⟨(batch_count_eff bc).toNat - 1, by omega⟩
    simp only [analyze_from_s3_endpoint, save_report_to_s3, hm,
      List.range_succ_eq_map, List.map_cons, List.headD_cons]
    rw [pyReplace_report_key (ids 0) (hdot 0 hpos)]
  · intro i hi hne heq
    exact hne (hinj i hi 0 hpos (str_append_left_cancel "reports/" _ _ heq).symm)

/-- C10 witness: a concrete batch of 2 exposes only the first report's
identifier in its complete event. -/
theorem C10_first_id_only_witness :
    ∃ m1 m2, (analyze_from_s3_endpoint "T" "t" "f.txt" none (some 2)
      (fun i => if i = 0 then "aa" else "bb") (fun _ => "resp")).1 =
      [.stage "processing" m1,
       .complete ("reports/" ++ (if (0 : Nat) = 0 then "aa" else "bb")) m2] :=
  (C10_first_id_only "T" "t" "f.txt" none (some 2)
    (fun i => if i = 0 then "aa" else "bb") (fun _ => "resp")
    (by decide) (by decide)).2.1

/-! ## Claim C1 -/

/-- C1 counterexample: the S3 batch entry point persists the raw model text
(here `"hello"`, not valid JSON) without any extraction, and the text entry
point persists a report whose `report` field is valid JSON without any
`checklist` key — both violating the stated invariant. -/
theorem C1_counterexample :
    ((analyze_from_s3_endpoint "T" "t" "f.txt" none (some 1) (fun _ => "id0")
        (fun _ => "hello")).2.map Report.report = ["hello"]) ∧
    jsonLoads "hello" = none ∧
    ((analyze_transcript_endpoint "T" "t" none none "rid" "\x7b\"a\": 1\x7d").2.map
      Report.report = ["\x7b\"a\": 1\x7d"]) ∧
    jsonLoads "\x7b\"a\": 1\x7d" = some (Json.obj [("a", Json.num "1")]) ∧
    ([("a", Json.num "1")] : List (String × Json)).lookup "checklist" = none := by
  refine ⟨rfl, rfl, ?_, rfl, rfl⟩
  show [dumps (Json.obj [("a", Json.num "1")])] = ["\x7b\"a\": 1\x7d"]
  simp only [dumps, dumpsObj, dumpsEsc]
  rfl

/-- C1 (amended): the text/file entry point persists a Report only after
structured extraction and timestamp normalization of the model response have
succeeded, and the persisted `report` field is the JSON serialization of the
normalized extracted value (valid JSON, though a `checklist` key is not
guaranteed to be present); the S3 batch entry point performs no extraction and
persists each raw model response text unchanged as the `report` field. -/
theorem C1_persistence (now t : String) (mid : Option String) :
    (∀ (sf : Option String) (rid r : String),
      ∀ rep ∈ (analyze_transcript_endpoint now t sf mid rid r).2,
        ∃ v v2, extract_structured r = some v ∧ cleanReport v = .ok v2 ∧
          rep.report = dumps v2) ∧
    (∀ (fk : String) (bc : Option Int) (ids responses : Nat → String),
      (analyze_from_s3_endpoint now t fk mid bc ids responses).2.map Report.report =
        (List.range (batch_count_eff bc).toNat).map responses) := by
  constructor
  · intro sf rid r rep hmem
    cases he : extract_structured r with
    | none => simp [analyze_transcript_endpoint, he] at hmem
    | some v =>
      cases hc : cleanReport v with
      | error e => simp [analyze_transcript_endpoint, he, hc] at hmem
      | ok v2 =>
        simp only [analyze_transcript_endpoint, he, hc, save_report_to_s3,
          List.mem_singleton] at hmem
        exact ⟨v, v2, rfl, hc, by rw [hmem]⟩
  · intro fk bc ids responses
    simp [analyze_from_s3_endpoint, save_report_to_s3, List.map_map, Function.comp]

/-- C1 witness: a persisted report of the text entry point at a concrete
response, whose report field is the serialization of the extracted value. -/
theorem C1_persistence_witness :
    ∃ v v2, extract_structured "\x7b\"checklist\":[]\x7d" = some v ∧
      cleanReport v = .ok v2 ∧
      (Report.mk "rid" "T" none none "t"
        (dumps (Json.obj [("checklist", Json.arr [])]))).report = dumps v2 :=
  (C1_persistence "T" "t" none).1 none "rid" "\x7b\"checklist\":[]\x7d"
    ⟨"rid", "T", none, none, "t", dumps (Json.obj [("checklist", Json.arr [])])⟩
    (by exact List.Mem.head _)
